import Mathlib

/-!
# Verification of netd's TC offload netlink message builders and transport

A shallow embedding of `server/OffloadUtils.cpp`: the three netlink request
builders (`doTcQdiscClsact`, `tcFilterAddDevBpf`, `tcFilterDelDev`) are
re-expressed as pure functions from their arguments to the byte sequence the
C code lays out in its on-stack request struct, and the response-processing
function `sendAndProcessNetlinkResponse` is re-expressed as a pure function
over an explicit record of OS-call outcomes.

Bytes are modelled as `Nat` values (each byte < 256); multi-byte fields are
serialized little-endian, matching the host byte order of the Android targets
this code runs on, except where the source itself applies `htons`.
-/

namespace OffloadUtils

/-! ## Kernel ABI constants (from the Linux uapi headers included by the source) -/

/-- Kernel constant `RTM_NEWQDISC` from `linux/rtnetlink.h`. -/
def RTM_NEWQDISC : Nat := 36
/-- Kernel constant `RTM_DELQDISC` from `linux/rtnetlink.h`. -/
def RTM_DELQDISC : Nat := 37
/-- Kernel constant `RTM_NEWTFILTER` from `linux/rtnetlink.h`. -/
def RTM_NEWTFILTER : Nat := 44
/-- Kernel constant `RTM_DELTFILTER` from `linux/rtnetlink.h`. -/
def RTM_DELTFILTER : Nat := 45

/-- Kernel constant `NLM_F_REQUEST` from `linux/netlink.h`. -/
def NLM_F_REQUEST : Nat := 0x01
/-- Kernel constant `NLM_F_ACK` from `linux/netlink.h`. -/
def NLM_F_ACK : Nat := 0x04
/-- Kernel constant `NLM_F_REPLACE` from `linux/netlink.h`. -/
def NLM_F_REPLACE : Nat := 0x100
/-- Kernel constant `NLM_F_EXCL` from `linux/netlink.h`. -/
def NLM_F_EXCL : Nat := 0x200
/-- Kernel constant `NLM_F_CREATE` from `linux/netlink.h`. -/
def NLM_F_CREATE : Nat := 0x400

/-- Kernel constant `NLMSG_ERROR` from `linux/netlink.h`: message type of an error/ack reply. -/
def NLMSG_ERROR : Nat := 0x2

/-- Modelled from the spec: `NETLINK_REQUEST_FLAGS` is defined in this
repository's `NetlinkCommands.h`, which is not under `src/`; per the spec the
transport performs a request/acknowledgment round trip, so the base flags are
`NLM_F_REQUEST | NLM_F_ACK`.  No claim below depends on the numeric value. -/
def NETLINK_REQUEST_FLAGS : Nat := NLM_F_REQUEST ||| NLM_F_ACK

/-- Kernel constant `AF_UNSPEC` from `sys/socket.h`. -/
def AF_UNSPEC : Nat := 0

/-- Kernel constant `TCA_KIND` from `linux/rtnetlink.h`. -/
def TCA_KIND : Nat := 1
/-- Kernel constant `TCA_OPTIONS` from `linux/rtnetlink.h`. -/
def TCA_OPTIONS : Nat := 2

/-- Kernel constant `TCA_BPF_FD` from `linux/pkt_cls.h`. -/
def TCA_BPF_FD : Nat := 6
/-- Kernel constant `TCA_BPF_NAME` from `linux/pkt_cls.h`. -/
def TCA_BPF_NAME : Nat := 7
/-- Kernel constant `TCA_BPF_FLAGS` from `linux/pkt_cls.h`. -/
def TCA_BPF_FLAGS : Nat := 8
/-- Kernel constant `TCA_BPF_FLAG_ACT_DIRECT` from `linux/pkt_cls.h`. -/
def TCA_BPF_FLAG_ACT_DIRECT : Nat := 1

/-- Kernel constant `TC_H_CLSACT` (= `TC_H_INGRESS`) from `linux/pkt_sched.h`. -/
def TC_H_CLSACT : Nat := 0xFFFFFFF1
/-- Kernel constant `TC_H_MIN_INGRESS` from `linux/pkt_sched.h`. -/
def TC_H_MIN_INGRESS : Nat := 0xFFF2
/-- Kernel constant `TC_H_MIN_EGRESS` from `linux/pkt_sched.h`. -/
def TC_H_MIN_EGRESS : Nat := 0xFFF3
/-- Kernel constant `TC_H_UNSPEC` from `linux/pkt_sched.h`. -/
def TC_H_UNSPEC : Nat := 0

/-- Kernel constant `ETH_P_IP` from `linux/if_ether.h`. -/
def ETH_P_IP : Nat := 0x0800
/-- Kernel constant `ETH_P_IPV6` from `linux/if_ether.h`. -/
def ETH_P_IPV6 : Nat := 0x86DD

/-- Kernel constant `EMSGSIZE` from `asm-generic/errno.h`. -/
def EMSGSIZE : Nat := 90
/-- Kernel constant `EBADMSG` from `asm-generic/errno.h`. -/
def EBADMSG : Nat := 74

/-- Kernel macro `TC_H_MAKE(maj, min)` from `linux/pkt_sched.h`:
`(maj & TC_H_MAJ_MASK) | (min & TC_H_MIN_MASK)`. -/
def TC_H_MAKE (maj mn : Nat) : Nat := (maj &&& 0xFFFF0000) ||| (mn &&& 0xFFFF)

/-- Kernel macro `NLMSG_ALIGN(len)` from `linux/netlink.h`: round up to a multiple of 4. -/
def NLMSG_ALIGN (len : Nat) : Nat := (len + 3) / 4 * 4

/-- Kernel constant `NLA_HDRLEN` from `linux/netlink.h`: `NLMSG_ALIGN(sizeof(struct nlattr))`. -/
def NLA_HDRLEN : Nat := 4

/-- Kernel constant `NLMSG_HDRLEN`: `sizeof(struct nlmsghdr)` (aligned). -/
def NLMSG_HDRLEN : Nat := 16

/-- Size `sizeof(struct tcmsg)`: family byte, 3 pad bytes, and four 32-bit fields. -/
def TCMSG_SIZE : Nat := 20

/-- Size `sizeof(struct nlmsgerr)`: a 32-bit error code plus an embedded header. -/
def NLMSGERR_SIZE : Nat := 4 + NLMSG_HDRLEN

/-- Function `htons` applied to a 16-bit value: swap the two bytes. -/
def htons (x : Nat) : Nat := (x % 256) * 256 + (x / 256) % 256

/-! ## Byte-level serialization helpers -/

/-- A 16-bit value laid out in host (little-endian) byte order. -/
def u16le (x : Nat) : List Nat := [x % 256, x / 256 % 256]

/-- A 32-bit value laid out in host (little-endian) byte order. -/
def u32le (x : Nat) : List Nat :=
  [x % 256, x / 256 % 256, x / 65536 % 256, x / 16777216 % 256]

/-- A C character array of size `n` initialized from a string literal: the
string's bytes followed by zero fill (which includes the terminating NUL). -/
def fixedStr (s : List Nat) (n : Nat) : List Nat :=
  s.take n ++ List.replicate (n - s.length) 0

/-- Result of `strncpy(dst, src, n)` into an `n`-byte field: copies at most `n` bytes of
`src` (given here without its terminating NUL) and zero-fills the remainder.
If `src` has at least `n` bytes the result is not NUL-terminated. -/
def strncpy (src : List Nat) (n : Nat) : List Nat :=
  src.take n ++ List.replicate (n - src.length) 0

/-- Serialized `struct nlmsghdr` with `nlmsg_seq = nlmsg_pid = 0` (zero-initialized, as
in all three builders). -/
def nlmsghdrBytes (len typ flags : Nat) : List Nat :=
  u32le len ++ u16le typ ++ u16le flags ++ u32le 0 ++ u32le 0

/-- Serialized `struct tcmsg`: `tcm_family` plus three implicit pad bytes, then
`tcm_ifindex`, `tcm_handle`, `tcm_parent`, `tcm_info`. -/
def tcmsgBytes (family ifindex handle parent info : Nat) : List Nat :=
  [family % 256, 0, 0, 0] ++ u32le ifindex ++ u32le handle ++ u32le parent ++ u32le info

/-- Serialized `struct nlattr`: 16-bit length then 16-bit type. -/
def nlattrBytes (len typ : Nat) : List Nat := u16le len ++ u16le typ

/-- Read back a 16-bit little-endian field at byte offset `off`. -/
def readU16le (l : List Nat) (off : Nat) : Nat :=
  l.getD off 0 + 256 * l.getD (off + 1) 0

/-- Read back a 32-bit little-endian field at byte offset `off`. -/
def readU32le (l : List Nat) (off : Nat) : Nat :=
  l.getD off 0 + 256 * l.getD (off + 1) 0 + 65536 * l.getD (off + 2) 0 +
    16777216 * l.getD (off + 3) 0

/-- Read back a 32-bit little-endian field as a signed (two's complement)
value, as the C code does for the `int error` field of `struct nlmsgerr`. -/
def readI32le (l : List Nat) (off : Nat) : Int :=
  let u := readU32le l off
  if u < 2147483648 then (u : Int) else (u : Int) - 4294967296

/-! ## Qdisc builder: `doTcQdiscClsact` -/

/-- The bytes of the string literal `"clsact"` (without its NUL). -/
def clsactBytes : List Nat := [0x63, 0x6C, 0x73, 0x61, 0x63, 0x74]

/-- Length `ASCIIZ_LEN_CLSACT`: `sizeof(clsact)`, which includes the terminating NUL. -/
def ASCIIZ_LEN_CLSACT : Nat := clsactBytes.length + 1

/-- Size of the `kind` member of the qdisc request struct:
`nlattr` header plus `char str[NLMSG_ALIGN(ASCIIZ_LEN_CLSACT)]`. -/
def qdiscKindSize : Nat := NLA_HDRLEN + NLMSG_ALIGN ASCIIZ_LEN_CLSACT

/-- Size `sizeof(req)` for the qdisc request. -/
def qdiscReqSize : Nat := NLMSG_HDRLEN + TCMSG_SIZE + qdiscKindSize

/-- The serialized `kind` member of the qdisc request: an `nlattr` whose
declared length is `NLA_HDRLEN + ASCIIZ_LEN_CLSACT` (unpadded) and whose
payload array holds `"clsact\0"` plus alignment zero fill. -/
def qdiscKindAttr : List Nat :=
  nlattrBytes (NLA_HDRLEN + ASCIIZ_LEN_CLSACT) TCA_KIND ++
    fixedStr clsactBytes (NLMSG_ALIGN ASCIIZ_LEN_CLSACT)

/-- The request struct built by `doTcQdiscClsact(ifIndex, nlMsgType, nlMsgFlags)`:
header, `tcmsg` body (`handle = TC_H_MAKE(TC_H_CLSACT, 0)`,
`parent = TC_H_CLSACT`, `tcm_info` zero-initialized), and the `kind` attribute. -/
def doTcQdiscClsact (ifIndex nlMsgType nlMsgFlags : Nat) : List Nat :=
  nlmsghdrBytes qdiscReqSize nlMsgType ((NETLINK_REQUEST_FLAGS ||| nlMsgFlags) % 65536) ++
    tcmsgBytes AF_UNSPEC ifIndex (TC_H_MAKE TC_H_CLSACT 0) TC_H_CLSACT 0 ++
    qdiscKindAttr

/-- ADD semantics per the source comment:
`nlMsgType=RTM_NEWQDISC nlMsgFlags=NLM_F_EXCL|NLM_F_CREATE`. -/
def qdiscAddReq (ifIndex : Nat) : List Nat :=
  doTcQdiscClsact ifIndex RTM_NEWQDISC (NLM_F_EXCL ||| NLM_F_CREATE)

/-- REPLACE semantics per the source comment:
`nlMsgType=RTM_NEWQDISC nlMsgFlags=NLM_F_CREATE|NLM_F_REPLACE`. -/
def qdiscReplaceReq (ifIndex : Nat) : List Nat :=
  doTcQdiscClsact ifIndex RTM_NEWQDISC (NLM_F_CREATE ||| NLM_F_REPLACE)

/-- DEL semantics per the source comment: `nlMsgType=RTM_DELQDISC nlMsgFlags=0`. -/
def qdiscDelReq (ifIndex : Nat) : List Nat :=
  doTcQdiscClsact ifIndex RTM_DELQDISC 0

/-! ## Filter-attach builder: `tcFilterAddDevBpf` -/

/-- ASCII bytes of a string literal. -/
def strAscii (s : String) : List Nat := s.data.map Char.toNat

/-- The bytes of the string literal `"bpf"` (without its NUL). -/
def bpfBytes : List Nat := strAscii "bpf"

/-- Length `ASCIIZ_LEN_BPF`: `sizeof(bpf)`, which includes the terminating NUL. -/
def ASCIIZ_LEN_BPF : Nat := bpfBytes.length + 1

/-- Program name `NAME_RX_RAWIP`, which the source states expands to
`prog_clatd_schedcls_ingress_clat_rawip:[*fsobj]`
(`CLAT_INGRESS_PROG_RAWIP_NAME` with the `FSOBJ_SUFFIX` marker). -/
def name_rx_rawip : List Nat := strAscii "prog_clatd_schedcls_ingress_clat_rawip:[*fsobj]"

/-- Program name `NAME_RX_ETHER`, which the source states expands to
`prog_clatd_schedcls_ingress_clat_ether:[*fsobj]`. -/
def name_rx_ether : List Nat := strAscii "prog_clatd_schedcls_ingress_clat_ether:[*fsobj]"

/-- Program name `NAME_TX_RAWIP`, which the source states expands to
`prog_clatd_schedcls_egress_clat_rawip:[*fsobj]`. -/
def name_tx_rawip : List Nat := strAscii "prog_clatd_schedcls_egress_clat_rawip:[*fsobj]"

/-- Program name `NAME_TX_ETHER`, which the source states expands to
`prog_clatd_schedcls_egress_clat_ether:[*fsobj]`. -/
def name_tx_ether : List Nat := strAscii "prog_clatd_schedcls_egress_clat_ether:[*fsobj]"

/-- Capacity `ASCIIZ_MAXLEN_NAME_RX`: the larger of the two ingress name array sizes
(each `sizeof` includes the terminating NUL). -/
def ASCIIZ_MAXLEN_NAME_RX : Nat := max (name_rx_rawip.length + 1) (name_rx_ether.length + 1)

/-- Capacity `ASCIIZ_MAXLEN_NAME_TX`: the larger of the two egress name array sizes. -/
def ASCIIZ_MAXLEN_NAME_TX : Nat := max (name_tx_rawip.length + 1) (name_tx_ether.length + 1)

/-- Capacity `ASCIIZ_MAXLEN_NAME`: the capacity the struct allocates for the name. -/
def ASCIIZ_MAXLEN_NAME : Nat := max ASCIIZ_MAXLEN_NAME_RX ASCIIZ_MAXLEN_NAME_TX

/-- Selection `NAME`: the run-time selection among the four program names:
`ingress ? (ethernet ? NAME_RX_ETHER : NAME_RX_RAWIP) : (ethernet ? NAME_TX_ETHER : NAME_TX_RAWIP)`. -/
def selectedName (ethernet ingress : Bool) : List Nat :=
  if ingress then (if ethernet then name_rx_ether else name_rx_rawip)
  else (if ethernet then name_tx_ether else name_tx_rawip)

/-- Size of the `kind` member of the filter-attach request struct. -/
def filterKindSize : Nat := NLA_HDRLEN + NLMSG_ALIGN ASCIIZ_LEN_BPF

/-- Size of the `options.fd` member: `nlattr` header plus a `__u32`. -/
def fdAttrSize : Nat := NLA_HDRLEN + 4

/-- Size of the name payload array: `char str[NLMSG_ALIGN(ASCIIZ_MAXLEN_NAME)]`. -/
def nameStrSize : Nat := NLMSG_ALIGN ASCIIZ_MAXLEN_NAME

/-- Size of the `options.name` member. -/
def nameAttrSize : Nat := NLA_HDRLEN + nameStrSize

/-- Size of the `options.flags` member: `nlattr` header plus a `__u32`. -/
def flagsAttrSize : Nat := NLA_HDRLEN + 4

/-- Size of the `options` member of the filter-attach request struct. -/
def optionsSize : Nat := NLA_HDRLEN + fdAttrSize + nameAttrSize + flagsAttrSize

/-- Size `sizeof(req)` for the filter-attach request. -/
def filterAddReqSize : Nat := NLMSG_HDRLEN + TCMSG_SIZE + filterKindSize + optionsSize

/-- The fixed filter priority used by `tcFilterAddDevBpf`. -/
def filterAddPrio : Nat := 1

/-- The request struct built by
`tcFilterAddDevBpf(ifIndex, bpfFd, ethernet, ingress, ipv6)`, after the final
`strncpy` of the selected program name over the name payload array.  The
`kind` and sub-attribute lengths are the C `sizeof` of the corresponding
struct members, and `tcm_info = (prio << 16) | htons(ethertype)`. -/
def tcFilterAddDevBpf (ifIndex bpfFd : Nat) (ethernet ingress ipv6 : Bool) : List Nat :=
  nlmsghdrBytes filterAddReqSize RTM_NEWTFILTER
      ((NETLINK_REQUEST_FLAGS ||| NLM_F_EXCL ||| NLM_F_CREATE) % 65536) ++
    tcmsgBytes AF_UNSPEC ifIndex TC_H_UNSPEC
      (TC_H_MAKE TC_H_CLSACT (if ingress then TC_H_MIN_INGRESS else TC_H_MIN_EGRESS))
      ((filterAddPrio <<< 16) ||| (if ipv6 then htons ETH_P_IPV6 else htons ETH_P_IP)) ++
    (nlattrBytes filterKindSize TCA_KIND ++ fixedStr bpfBytes (NLMSG_ALIGN ASCIIZ_LEN_BPF)) ++
    (nlattrBytes optionsSize TCA_OPTIONS ++
      (nlattrBytes fdAttrSize TCA_BPF_FD ++ u32le bpfFd) ++
      (nlattrBytes nameAttrSize TCA_BPF_NAME ++ strncpy (selectedName ethernet ingress) nameStrSize) ++
      (nlattrBytes flagsAttrSize TCA_BPF_FLAGS ++ u32le TCA_BPF_FLAG_ACT_DIRECT))

/-! ## Filter-detach builder: `tcFilterDelDev` -/

/-- Size `sizeof(req)` for the filter-detach request: header and `tcmsg` only. -/
def filterDelReqSize : Nat := NLMSG_HDRLEN + TCMSG_SIZE

/-- The request struct built by `tcFilterDelDev(ifIndex, ingress, prio, proto)`:
header (`RTM_DELTFILTER`, base request flags only) and `tcmsg` body with
`tcm_info = (prio << 16) | htons(proto)`; no attributes. -/
def tcFilterDelDev (ifIndex : Nat) (ingress : Bool) (prio proto : Nat) : List Nat :=
  nlmsghdrBytes filterDelReqSize RTM_DELTFILTER (NETLINK_REQUEST_FLAGS % 65536) ++
    tcmsgBytes AF_UNSPEC ifIndex TC_H_UNSPEC
      (TC_H_MAKE TC_H_CLSACT (if ingress then TC_H_MIN_INGRESS else TC_H_MIN_EGRESS))
      (((prio % 65536) <<< 16) ||| htons (proto % 65536))

/-! ## Transport: `sendAndProcessNetlinkResponse`

The OS calls the transport makes (`socket`, `bind`, `connect`, `send`,
`recv`) are modelled by an explicit record of their outcomes; the function
below reproduces the source's control flow over that record.  The
`setsockopt(NETLINK_CAP_ACK)` call is best-effort in the source (its failure
only logs) and so does not appear in the outcome record. -/

/-- Outcomes of the OS calls made during one transaction.  For each fallible
call, `none`/`some` distinguishes failure (with the associated `errno`) from
success.  `recvResult` on success carries the full received packet; `recv`
with `MSG_TRUNC` reports the packet's true length even when it exceeds the
buffer, and only the first `respBufSize` bytes land in the buffer. -/
structure NetlinkOs where
  socketErrno : Option Nat
  bindErrno : Option Nat
  connectErrno : Option Nat
  sendResult : Option Nat
  sendErrno : Nat
  recvResult : Option (List Nat)
  recvErrno : Nat

/-- Size `sizeof(resp)`: `nlmsghdr` + `nlmsgerr` + 256 bytes of slack. -/
def respBufSize : Nat := NLMSG_HDRLEN + NLMSGERR_SIZE + 256

/-- Threshold `NLMSG_SPACE(sizeof(struct nlmsgerr))`: the minimum acceptable reply
length, a complete header plus error envelope, aligned. -/
def NLMSG_SPACE_NLMSGERR : Nat := NLMSG_ALIGN (NLMSG_HDRLEN + NLMSGERR_SIZE)

/-- The zero-initialized `resp` struct after `recv` wrote the first
`min (packet length) respBufSize` bytes of the packet into it.  Every later
field read is within this fixed-size buffer, so no read is out of bounds. -/
def respAfterRecv (packet : List Nat) : List Nat :=
  packet.take respBufSize ++ List.replicate (respBufSize - packet.length) 0

/-- Function `sendAndProcessNetlinkResponse(req, len)` over an explicit OS-outcome
record: propagate `socket`/`bind`/`connect` failures as negative errnos;
fail a short send with `-EMSGSIZE`; propagate `send`/`recv` failures; reject
a reply shorter than `NLMSG_SPACE(sizeof(nlmsgerr))` with `-EMSGSIZE`; reject
a header length disagreeing with the received byte count, or a message type
other than `NLMSG_ERROR`, with `-EBADMSG`; otherwise return the embedded
`nlmsgerr.error` value. -/
def sendAndProcessNetlinkResponse (os : NetlinkOs) (req : List Nat) : Int :=
  match os.socketErrno with
  | some e => -(e : Int)
  | none =>
  match os.bindErrno with
  | some e => -(e : Int)
  | none =>
  match os.connectErrno with
  | some e => -(e : Int)
  | none =>
  match os.sendResult with
  | none => -(os.sendErrno : Int)
  | some sent =>
  if sent ≠ req.length then -(EMSGSIZE : Int)
  else
  match os.recvResult with
  | none => -(os.recvErrno : Int)
  | some packet =>
    let rv := packet.length
    let resp := respAfterRecv packet
    if rv < NLMSG_SPACE_NLMSGERR then -(EMSGSIZE : Int)
    else if readU32le resp 0 ≠ rv then -(EBADMSG : Int)
    else if readU16le resp 4 ≠ NLMSG_ERROR then -(EBADMSG : Int)
    else readI32le resp 16

/-! ## Theorems

Byte offsets used below (fixed by the struct layouts above):
in every request, `nlmsg_len` is at 0, `nlmsg_type` at 4, `nlmsg_flags` at 6,
and the `tcmsg` body at 16 (`tcm_ifindex` 20, `tcm_handle` 24, `tcm_parent` 28,
`tcm_info` 32).  The first attribute starts at 36.  In the filter-attach
request the `kind` attribute occupies 36..43, `options` starts at 44 with its
`fd` member at 48, `name` at 56 (payload at 60..107) and `flags` at 108. -/

/-- Claim C1, counterexample to the claim as stated: a qdisc request built
with Delete-semantics (`nlMsgType=RTM_DELQDISC`, `nlMsgFlags=0`) does NOT
omit the "kind" attribute: at interface index 1 the request is longer than a
bare header plus TC body, and the attribute header at offset 36 declares a
`TCA_KIND` attribute. -/
theorem C1_delete_counterexample :
    readU16le (qdiscDelReq 1) 38 = TCA_KIND ∧
    (qdiscDelReq 1).length ≠ NLMSG_HDRLEN + TCMSG_SIZE := by decide

/-- Claim C1 (amended): for every interface index, the Add-semantics and
Replace-semantics qdisc requests are byte-identical except for the
create-flags field of the header (bytes 6..7); the Delete-semantics request
uses the delete message type and carries the same "kind" attribute as
Add/Replace, differing from Add only in the message-type and flags fields
(bytes 4..7). -/
theorem C1_qdisc_request_shapes (ifIndex : Nat) :
    (qdiscAddReq ifIndex).take 6 = (qdiscReplaceReq ifIndex).take 6 ∧
    (qdiscAddReq ifIndex).drop 8 = (qdiscReplaceReq ifIndex).drop 8 ∧
    readU16le (qdiscDelReq ifIndex) 4 = RTM_DELQDISC ∧
    (qdiscDelReq ifIndex).take 4 = (qdiscAddReq ifIndex).take 4 ∧
    (qdiscDelReq ifIndex).drop 8 = (qdiscAddReq ifIndex).drop 8 ∧
    (qdiscDelReq ifIndex).drop 36 = qdiscKindAttr ∧
    (qdiscAddReq ifIndex).drop 36 = qdiscKindAttr :=
  ⟨rfl, rfl, rfl, rfl, rfl, rfl, rfl⟩

set_option maxHeartbeats 2000000 in
/-- Claim C2: in every constructed request, each attribute's declared length
equals the attribute header size plus the actual (unpadded) payload size, each
attribute starts at a 4-byte-aligned offset, and a parent's length counts the
padded size of each child.  For the qdisc request, the kind attribute at
offset 36 declares `NLA_HDRLEN + sizeof("clsact")` (7 payload bytes, the
trailing alignment byte excluded) and the message extends past it by the
padded attribute size.  For the filter-attach request, the kind attribute at
36 declares 4 + 4 (payload `"bpf\0"`, already aligned), the fd/name/flags
sub-attributes at 48/56/108 declare 4 plus their exact payload sizes, and the
options attribute at 44 declares 4 plus the sum of its children's padded
sizes. -/
theorem C2_attribute_layout (ifIndex nlMsgType nlMsgFlags bpfFd : Nat)
    (eth ing v6 : Bool) :
    (36 % 4 = 0 ∧
      readU16le (doTcQdiscClsact ifIndex nlMsgType nlMsgFlags) 38 = TCA_KIND ∧
      readU16le (doTcQdiscClsact ifIndex nlMsgType nlMsgFlags) 36
        = NLA_HDRLEN + ASCIIZ_LEN_CLSACT ∧
      ASCIIZ_LEN_CLSACT = (clsactBytes ++ [0]).length ∧
      (doTcQdiscClsact ifIndex nlMsgType nlMsgFlags).length
        = 36 + NLMSG_ALIGN (NLA_HDRLEN + ASCIIZ_LEN_CLSACT)) ∧
    (36 % 4 = 0 ∧ 44 % 4 = 0 ∧ 48 % 4 = 0 ∧ 56 % 4 = 0 ∧ 108 % 4 = 0 ∧
      readU16le (tcFilterAddDevBpf ifIndex bpfFd eth ing v6) 38 = TCA_KIND ∧
      readU16le (tcFilterAddDevBpf ifIndex bpfFd eth ing v6) 36 = filterKindSize ∧
      filterKindSize = NLA_HDRLEN + (bpfBytes ++ [0]).length ∧
      readU16le (tcFilterAddDevBpf ifIndex bpfFd eth ing v6) 46 = TCA_OPTIONS ∧
      readU16le (tcFilterAddDevBpf ifIndex bpfFd eth ing v6) 50 = TCA_BPF_FD ∧
      readU16le (tcFilterAddDevBpf ifIndex bpfFd eth ing v6) 48 = fdAttrSize ∧
      fdAttrSize = NLA_HDRLEN + (u32le bpfFd).length ∧
      readU16le (tcFilterAddDevBpf ifIndex bpfFd eth ing v6) 58 = TCA_BPF_NAME ∧
      readU16le (tcFilterAddDevBpf ifIndex bpfFd eth ing v6) 56 = nameAttrSize ∧
      nameAttrSize = NLA_HDRLEN + (strncpy (selectedName eth ing) nameStrSize).length ∧
      readU16le (tcFilterAddDevBpf ifIndex bpfFd eth ing v6) 110 = TCA_BPF_FLAGS ∧
      readU16le (tcFilterAddDevBpf ifIndex bpfFd eth ing v6) 108 = flagsAttrSize ∧
      flagsAttrSize = NLA_HDRLEN + (u32le TCA_BPF_FLAG_ACT_DIRECT).length ∧
      readU16le (tcFilterAddDevBpf ifIndex bpfFd eth ing v6) 44 = optionsSize ∧
      optionsSize
        = NLA_HDRLEN
          + (NLMSG_ALIGN fdAttrSize + NLMSG_ALIGN nameAttrSize + NLMSG_ALIGN flagsAttrSize) ∧
      (tcFilterAddDevBpf ifIndex bpfFd eth ing v6).length = 44 + NLMSG_ALIGN optionsSize) := by
  cases eth <;> cases ing <;>
    exact ⟨⟨rfl, rfl, rfl, by decide, rfl⟩,
      rfl, rfl, rfl, rfl, rfl, rfl, rfl, by decide, rfl, rfl, rfl, rfl, rfl, rfl,
      by decide, rfl, rfl, rfl, rfl, by decide, rfl⟩

set_option maxHeartbeats 2000000 in
/-- Claim C3: for every request constructed by any of the three builders with
any arguments, the header's `nlmsg_len` field equals the exact number of
bytes passed to the transport (the full serialized request). -/
theorem C3_header_length_exact (ifIndex nlMsgType nlMsgFlags bpfFd prio proto : Nat)
    (eth ing v6 ing2 : Bool) :
    readU32le (doTcQdiscClsact ifIndex nlMsgType nlMsgFlags) 0
      = (doTcQdiscClsact ifIndex nlMsgType nlMsgFlags).length ∧
    readU32le (tcFilterAddDevBpf ifIndex bpfFd eth ing v6) 0
      = (tcFilterAddDevBpf ifIndex bpfFd eth ing v6).length ∧
    readU32le (tcFilterDelDev ifIndex ing2 prio proto) 0
      = (tcFilterDelDev ifIndex ing2 prio proto).length := by
  cases eth <;> cases ing <;> exact ⟨rfl, rfl, rfl⟩

/-- Claim C4: once the socket is set up, a send that reports transferring a
number of bytes other than the request length (in particular, fewer) fails
the transaction with `-EMSGSIZE` ("message too large to send atomically"),
and a failing send returns the underlying OS error negated. -/
theorem C4_send_failure_codes (os : NetlinkOs) (req : List Nat)
    (hs : os.socketErrno = none) (hb : os.bindErrno = none)
    (hc : os.connectErrno = none) :
    (os.sendResult = none →
      sendAndProcessNetlinkResponse os req = -(os.sendErrno : Int)) ∧
    (∀ n, os.sendResult = some n → n < req.length →
      sendAndProcessNetlinkResponse os req = -(EMSGSIZE : Int)) := by
  constructor
  · intro hn
    simp [sendAndProcessNetlinkResponse, hs, hb, hc, hn]
  · intro n hn hlt
    have hne : n ≠ req.length := Nat.ne_of_lt hlt
    simp [sendAndProcessNetlinkResponse, hs, hb, hc, hn, hne]

/-- Witness for C4: with a working socket, sending only 3 of the 48 bytes of
a qdisc request yields `-EMSGSIZE`, and a send that fails with `errno` 13
yields `-13`. -/
theorem C4_send_failure_codes_witness :
    sendAndProcessNetlinkResponse ⟨none, none, none, some 3, 0, none, 0⟩
      (qdiscAddReq 7) = -(EMSGSIZE : Int) ∧
    sendAndProcessNetlinkResponse ⟨none, none, none, none, 13, none, 0⟩
      (qdiscAddReq 7) = -13 :=
  ⟨(C4_send_failure_codes ⟨none, none, none, some 3, 0, none, 0⟩ (qdiscAddReq 7)
      rfl rfl rfl).2 3 rfl (by decide),
   (C4_send_failure_codes ⟨none, none, none, none, 13, none, 0⟩ (qdiscAddReq 7)
      rfl rfl rfl).1 rfl⟩

/-- Claim C5: every field the reply validation reads lies inside the
fixed-size zero-initialized receive buffer (whose length is always
`respBufSize`, so no read is out of bounds), and the transaction returns an
error whenever the reply is shorter than a complete header plus error
envelope (`-EMSGSIZE`), or its declared length differs from the number of
bytes received (`-EBADMSG`), or its message type is not `NLMSG_ERROR`
(`-EBADMSG`); only a reply passing all three checks yields the embedded
result code. -/
theorem C5_reply_validation (os : NetlinkOs) (req packet : List Nat)
    (hs : os.socketErrno = none) (hb : os.bindErrno = none)
    (hc : os.connectErrno = none) (hsend : os.sendResult = some req.length)
    (hr : os.recvResult = some packet) :
    (respAfterRecv packet).length = respBufSize ∧
    (packet.length < NLMSG_SPACE_NLMSGERR →
      sendAndProcessNetlinkResponse os req = -(EMSGSIZE : Int)) ∧
    (NLMSG_SPACE_NLMSGERR ≤ packet.length →
      readU32le (respAfterRecv packet) 0 ≠ packet.length →
      sendAndProcessNetlinkResponse os req = -(EBADMSG : Int)) ∧
    (NLMSG_SPACE_NLMSGERR ≤ packet.length →
      readU32le (respAfterRecv packet) 0 = packet.length →
      readU16le (respAfterRecv packet) 4 ≠ NLMSG_ERROR →
      sendAndProcessNetlinkResponse os req = -(EBADMSG : Int)) ∧
    (NLMSG_SPACE_NLMSGERR ≤ packet.length →
      readU32le (respAfterRecv packet) 0 = packet.length →
      readU16le (respAfterRecv packet) 4 = NLMSG_ERROR →
      sendAndProcessNetlinkResponse os req = readI32le (respAfterRecv packet) 16) := by
  refine ⟨?_, ?_, ?_, ?_, ?_⟩
  · simp only [respAfterRecv, List.length_append, List.length_take,
      List.length_replicate, respBufSize, NLMSGERR_SIZE, NLMSG_HDRLEN]
    omega
  · intro h1
    simp [sendAndProcessNetlinkResponse, hs, hb, hc, hsend, hr, h1]
  · intro h1 h2
    have h1n : ¬ packet.length < NLMSG_SPACE_NLMSGERR := by omega
    simp [sendAndProcessNetlinkResponse, hs, hb, hc, hsend, hr, h1n, h2]
  · intro h1 h2 h3
    have h1n : ¬ packet.length < NLMSG_SPACE_NLMSGERR := by omega
    simp [sendAndProcessNetlinkResponse, hs, hb, hc, hsend, hr, h1n, h2, h3]
  · intro h1 h2 h3
    have h1n : ¬ packet.length < NLMSG_SPACE_NLMSGERR := by omega
    simp [sendAndProcessNetlinkResponse, hs, hb, hc, hsend, hr, h1n, h2, h3]

/-- Witness for C5: a well-formed 36-byte error reply declaring length 36,
type `NLMSG_ERROR`, and embedded error `-17` makes the transaction return
`-17`; the reply used is
`nlmsg_len=36, nlmsg_type=2, flags/seq/pid=0, error=-17, echoed header=0`. -/
theorem C5_reply_validation_witness :
    sendAndProcessNetlinkResponse
      ⟨none, none, none, some 48, 0,
        some [36, 0, 0, 0, 2, 0, 0, 0, 0, 0, 0, 0, 0, 0, 0, 0,
              239, 255, 255, 255, 0, 0, 0, 0, 0, 0, 0, 0, 0, 0, 0, 0, 0, 0, 0, 0], 0⟩
      (qdiscAddReq 1) = -17 :=
  ((C5_reply_validation _ (qdiscAddReq 1) _ rfl rfl rfl rfl rfl).2.2.2.2
    (by decide) (by decide) (by decide)).trans (by decide)

/-- Claim C6, counterexample to the claim as stated: the synthetic code for a
too-short reply is `-EMSGSIZE`, which is NOT distinct from the OS error-code
space used for I/O failures: a short send (an I/O failure) of the same
36-byte detach request produces the very same `-EMSGSIZE` (= `-90`). -/
theorem C6_error_code_counterexample :
    sendAndProcessNetlinkResponse ⟨none, none, none, some 36, 0, some [0], 0⟩
        (tcFilterDelDev 1 true 1 ETH_P_IP) = -(EMSGSIZE : Int) ∧
    sendAndProcessNetlinkResponse ⟨none, none, none, some 10, 0, none, 0⟩
        (tcFilterDelDev 1 true 1 ETH_P_IP) = -(EMSGSIZE : Int) ∧
    (EMSGSIZE : Int) = 90 := by decide

/-- Claim C6 (amended): every protocol-violation failure is surfaced as one
of two fixed synthetic codes — `-EMSGSIZE` for a too-short reply and
`-EBADMSG` for a declared-length mismatch or wrong message type — but these
are reused OS errno values, not distinct from the OS error-code space: a
short send (an I/O failure) of the same request yields the same `-EMSGSIZE`. -/
theorem C6_protocol_error_codes (os : NetlinkOs) (req packet : List Nat)
    (hs : os.socketErrno = none) (hb : os.bindErrno = none)
    (hc : os.connectErrno = none) (hsend : os.sendResult = some req.length)
    (hr : os.recvResult = some packet) :
    (packet.length < NLMSG_SPACE_NLMSGERR →
      sendAndProcessNetlinkResponse os req = -(EMSGSIZE : Int)) ∧
    (NLMSG_SPACE_NLMSGERR ≤ packet.length →
      readU32le (respAfterRecv packet) 0 ≠ packet.length →
      sendAndProcessNetlinkResponse os req = -(EBADMSG : Int)) ∧
    (NLMSG_SPACE_NLMSGERR ≤ packet.length →
      readU32le (respAfterRecv packet) 0 = packet.length →
      readU16le (respAfterRecv packet) 4 ≠ NLMSG_ERROR →
      sendAndProcessNetlinkResponse os req = -(EBADMSG : Int)) ∧
    (∀ m, m ≠ req.length →
      sendAndProcessNetlinkResponse ⟨none, none, none, some m, 0, os.recvResult, 0⟩ req
        = -(EMSGSIZE : Int)) := by
  refine ⟨?_, ?_, ?_, ?_⟩
  · intro h1
    simp [sendAndProcessNetlinkResponse, hs, hb, hc, hsend, hr, h1]
  · intro h1 h2
    have h1n : ¬ packet.length < NLMSG_SPACE_NLMSGERR := by omega
    simp [sendAndProcessNetlinkResponse, hs, hb, hc, hsend, hr, h1n, h2]
  · intro h1 h2 h3
    have h1n : ¬ packet.length < NLMSG_SPACE_NLMSGERR := by omega
    simp [sendAndProcessNetlinkResponse, hs, hb, hc, hsend, hr, h1n, h2, h3]
  · intro m hm
    simp [sendAndProcessNetlinkResponse, hm]

/-- Witness for C6: a 3-byte reply to a 36-byte detach request is a
protocol violation surfaced as `-EMSGSIZE`, and a send of 20 of the 36 bytes
is an I/O failure surfaced as the same `-EMSGSIZE`. -/
theorem C6_protocol_error_codes_witness :
    sendAndProcessNetlinkResponse ⟨none, none, none, some 36, 0, some [1, 2, 3], 0⟩
        (tcFilterDelDev 2 true 1 ETH_P_IP) = -(EMSGSIZE : Int) ∧
    sendAndProcessNetlinkResponse ⟨none, none, none, some 20, 0, some [1, 2, 3], 0⟩
        (tcFilterDelDev 2 true 1 ETH_P_IP) = -(EMSGSIZE : Int) :=
  ⟨(C6_protocol_error_codes ⟨none, none, none, some 36, 0, some [1, 2, 3], 0⟩
      (tcFilterDelDev 2 true 1 ETH_P_IP) [1, 2, 3] rfl rfl rfl rfl rfl).1 (by decide),
   (C6_protocol_error_codes ⟨none, none, none, some 36, 0, some [1, 2, 3], 0⟩
      (tcFilterDelDev 2 true 1 ETH_P_IP) [1, 2, 3] rfl rfl rfl rfl rfl).2.2.2 20 (by decide)⟩

/-- Claim C7: for every interface index, descriptor and protocol flag, the
filter-attach request for (ingress=true, ethernet=true) embeds the
ethernet-ingress program name variant in its name payload (bytes 60..107),
and the four {ingress, egress} × {ethernet, raw-IP} combinations each embed
their own fixed compile-time name constant byte-for-byte (followed by NUL
zero fill); the four embedded fields are pairwise distinct. -/
theorem C7_name_selection (ifIndex bpfFd : Nat) (v6 : Bool) :
    (((tcFilterAddDevBpf ifIndex bpfFd true true v6).drop 60).take 48
        = strncpy name_rx_ether nameStrSize ∧
      ((tcFilterAddDevBpf ifIndex bpfFd false true v6).drop 60).take 48
        = strncpy name_rx_rawip nameStrSize ∧
      ((tcFilterAddDevBpf ifIndex bpfFd true false v6).drop 60).take 48
        = strncpy name_tx_ether nameStrSize ∧
      ((tcFilterAddDevBpf ifIndex bpfFd false false v6).drop 60).take 48
        = strncpy name_tx_rawip nameStrSize) ∧
    ((strncpy name_rx_ether nameStrSize).take name_rx_ether.length = name_rx_ether ∧
      (strncpy name_rx_rawip nameStrSize).take name_rx_rawip.length = name_rx_rawip ∧
      (strncpy name_tx_ether nameStrSize).take name_tx_ether.length = name_tx_ether ∧
      (strncpy name_tx_rawip nameStrSize).take name_tx_rawip.length = name_tx_rawip) ∧
    (strncpy name_rx_ether nameStrSize ≠ strncpy name_rx_rawip nameStrSize ∧
      strncpy name_rx_ether nameStrSize ≠ strncpy name_tx_ether nameStrSize ∧
      strncpy name_rx_ether nameStrSize ≠ strncpy name_tx_rawip nameStrSize ∧
      strncpy name_rx_rawip nameStrSize ≠ strncpy name_tx_ether nameStrSize ∧
      strncpy name_rx_rawip nameStrSize ≠ strncpy name_tx_rawip nameStrSize ∧
      strncpy name_tx_ether nameStrSize ≠ strncpy name_tx_rawip nameStrSize) := by
  exact ⟨⟨rfl, rfl, rfl, rfl⟩, by decide, by decide⟩

/-- Claim C8: the filter-attach request for `ifIndex=5`, descriptor 42,
raw-IP, ingress, IPv4 has `tcm_parent` equal to the ingress clsact handle,
`tcm_info` equal to `(1 << 16) | htons(ETH_P_IP)`, a descriptor
sub-attribute carrying 42, a name payload equal to the raw-IP ingress
pinned-name constant (NUL-filled to the field size), and a flags
sub-attribute equal to the direct-action constant. -/
theorem C8_attach_scenario :
    readU32le (tcFilterAddDevBpf 5 42 false true false) 28
      = TC_H_MAKE TC_H_CLSACT TC_H_MIN_INGRESS ∧
    readU32le (tcFilterAddDevBpf 5 42 false true false) 32
      = (1 <<< 16) ||| htons ETH_P_IP ∧
    readU16le (tcFilterAddDevBpf 5 42 false true false) 50 = TCA_BPF_FD ∧
    readU32le (tcFilterAddDevBpf 5 42 false true false) 52 = 42 ∧
    readU16le (tcFilterAddDevBpf 5 42 false true false) 58 = TCA_BPF_NAME ∧
    ((tcFilterAddDevBpf 5 42 false true false).drop 60).take 48
      = strncpy name_rx_rawip nameStrSize ∧
    ((tcFilterAddDevBpf 5 42 false true false).drop 60).take name_rx_rawip.length
      = name_rx_rawip ∧
    readU16le (tcFilterAddDevBpf 5 42 false true false) 110 = TCA_BPF_FLAGS ∧
    readU32le (tcFilterAddDevBpf 5 42 false true false) 112
      = TCA_BPF_FLAG_ACT_DIRECT := by decide

/-- Claim C9: the filter-detach request for `ifIndex=5`, egress, priority 1,
protocol IPv4 consists of header plus TC body only (36 bytes, no
attributes), uses the delete-filter message type with no flags beyond the
base request flags, has `tcm_parent` equal to the egress clsact handle, and
has `tcm_info = (1 << 16) | htons(ETH_P_IP)`. -/
theorem C9_detach_scenario :
    (tcFilterDelDev 5 false 1 ETH_P_IP).length = NLMSG_HDRLEN + TCMSG_SIZE ∧
    readU16le (tcFilterDelDev 5 false 1 ETH_P_IP) 4 = RTM_DELTFILTER ∧
    readU16le (tcFilterDelDev 5 false 1 ETH_P_IP) 6 = NETLINK_REQUEST_FLAGS ∧
    readU32le (tcFilterDelDev 5 false 1 ETH_P_IP) 28
      = TC_H_MAKE TC_H_CLSACT TC_H_MIN_EGRESS ∧
    readU32le (tcFilterDelDev 5 false 1 ETH_P_IP) 32
      = (1 <<< 16) ||| htons ETH_P_IP := by decide

/-- Claim C10: for every combination of the ethernet and ingress booleans,
the selected program name fits in the fixed-capacity name field including
its terminating NUL: the name is strictly shorter than the field, the
`strncpy` copies it whole (no truncation) and zero-fills the rest, and the
byte right after the name is NUL. -/
theorem C10_name_capacity (eth ing : Bool) :
    (selectedName eth ing).length + 1 ≤ nameStrSize ∧
    strncpy (selectedName eth ing) nameStrSize
      = selectedName eth ing
        ++ List.replicate (nameStrSize - (selectedName eth ing).length) 0 ∧
    (strncpy (selectedName eth ing) nameStrSize).getD (selectedName eth ing).length 0
      = 0 := by
  cases eth <;> cases ing <;> exact ⟨by decide, by decide, by decide⟩

end OffloadUtils
